import Mathlib

/-!
# Registration-Playground: `RegistrationPlayground.cxx`

The program is a straight-line script over an external image-processing
toolkit: it creates toolkit objects, configures them through setter calls,
wires their outputs to each other's inputs, and triggers the toolkit with
`Update()` calls, some of which may raise an `itk::ExceptionObject`.

The embedding follows that shape.  Every toolkit call and every stream output
of the source is one `Event`; a run of a function is the list of events it
produced (in program order) together with its result or the exception that
escaped it.  Objects are named by the local variable that holds them, so a
pointer handed from one object to another is the name of the object it points
to: a setting made on an object after it was handed over is seen by the holder,
as in the source.  Getters are reads and leave no event.

The toolkit itself is a parameter (`Toolkit`): for every `Update()` it says
whether the call raises, and it supplies the values the program reads back
through getters.  Every object is created once and updated at most once, so a
`Toolkit` value describes one complete run of the external library, and a
statement for all toolkits holds for whatever the library does.  The calls that
can raise are the `Update()` calls, and what they raise is an
`itk::ExceptionObject`, the only exception type the source handles.

C++ `double` and `float` values are represented by the rational number their
literal denotes; the program never computes with them, except for the unused
local `numberOfSamples`, whose conversion to `unsigned int` is modelled with its
range.
-/

namespace RegistrationPlayground

/-! ## IO filenames (lines 15-19) -/

def FIXED_FILE : String := "data/B006_LFOV_N4.nii.gz"
def MOVING_FILE : String := "data/B006_PLAN_CT.nii.gz"
def OUT_FILE : String := "data/out.nii.gz"
def DIFF_FILE : String := "data/dif.nii.gz"

/-! ## Image types (lines 21-29) -/

def DIM : Nat := 3

abbrev PixelType := ℚ

/-- A toolkit array with `DIM = 3` components (`itk::Size`, `itk::Index`,
`itk::Point`, `itk::Vector`, and the rows of the direction matrix). -/
structure FixedArray (α : Type) where
  e0 : α
  e1 : α
  e2 : α
deriving DecidableEq

/-- `ImageType::RegionType`. -/
structure RegionType where
  index : FixedArray Int
  size : FixedArray Nat
deriving DecidableEq

/-- `RegionType::GetNumberOfPixels()`: the product of the region's sizes, in
the toolkit's 64-bit unsigned `SizeValueType`. -/
def RegionType.GetNumberOfPixels (r : RegionType) : Nat :=
  (r.size.e0 * r.size.e1 * r.size.e2) % 2 ^ 64

/-- What the program can read from an `itk::Image<PixelType, DIM>`: its grid
(regions, origin, spacing, direction) and its pixel buffer. -/
structure ImageType where
  largestPossibleRegion : RegionType
  bufferedRegion : RegionType
  origin : FixedArray ℚ
  spacing : FixedArray ℚ
  direction : FixedArray (FixedArray ℚ)
  buffer : List PixelType
deriving DecidableEq

abbrev FixedImageType := ImageType
abbrev MovingImageType := ImageType

/-- The toolkit classes the source instantiates (the right-hand sides of its
typedefs). -/
inductive ToolkitClass where
  | ImageFileReader
  | ImageFileWriter
  | TranslationTransform
  | GradientDescentOptimizer
  | MutualInformationImageToImageMetric
  | LinearInterpolateImageFunction
  | ImageRegistrationMethod
  | NormalizeImageFilter
  | DiscreteGaussianImageFilter
  | ResampleImageFilter
  | CheckerBoardImageFilter
  | SubtractImageFilter
deriving DecidableEq

abbrev ReaderType : ToolkitClass := .ImageFileReader
abbrev WriterType : ToolkitClass := .ImageFileWriter

/-! ## Registration types (lines 31-40) -/

abbrev TransformType : ToolkitClass := .TranslationTransform
abbrev OptimizerType : ToolkitClass := .GradientDescentOptimizer
abbrev MetricType : ToolkitClass := .MutualInformationImageToImageMetric
abbrev InterpolatorType : ToolkitClass := .LinearInterpolateImageFunction
abbrev RegistrationType : ToolkitClass := .ImageRegistrationMethod

/-- `RegistrationType::ParametersType`: a vector of `double`. -/
abbrev ParametersType := List ℚ

/-! ## Prefiltering and postfiltering types (lines 42-54) -/

abbrev NormalizeFilterType : ToolkitClass := .NormalizeImageFilter
abbrev GaussianFilterType : ToolkitClass := .DiscreteGaussianImageFilter
abbrev ResampleFilterType : ToolkitClass := .ResampleImageFilter
abbrev CheckerBoardFilterType : ToolkitClass := .CheckerBoardImageFilter
abbrev DifferenceFilterType : ToolkitClass := .SubtractImageFilter

/-! ## Objects, pointers, events -/

/-- The toolkit objects of the program, named by the local variable that holds
them.  Each is created by exactly one `New()` in the source. -/
inductive ObjectId where
  -- locals of `main`
  | fixedImageReader
  | movingImageReader
  | checker
  | difference
  | outWriter
  | difWriter
  -- locals of `translationMulitmodalRegistration`
  | fixedNormalizer
  | movingNormalizer
  | fixedSmoother
  | movingSmoother
  | metric
  | transform
  | optimizer
  | interpolator
  | registration
  | finalTransform
  | resample
deriving DecidableEq

/-- An `ImageType::Pointer`: either the output data object of a toolkit object
(`o->GetOutput()`), or a free-standing image with known content. -/
inductive ImagePointer where
  | output (o : ObjectId)
  | data (img : ImageType)
deriving DecidableEq

/-- `itk::ExceptionObject`, the base class the two `catch` clauses name (the
rethrow in line 123 copies that base class).  `text` is what `operator<<` writes
for it. -/
structure ExceptionObject where
  text : String
deriving DecidableEq

/-- `EXIT_FAILURE` of `<cstdlib>`: a non-zero status, 1 on the usual platforms. -/
def EXIT_FAILURE : Int := 1

/-- One observable step of the program: a write to a standard stream or a call
of a toolkit member function on the object `o`. -/
inductive Event where
  | cout (text : String)
  | coutEndl
  | cerr (text : String)
  | cerrEndl
  | New (o : ObjectId) (cls : ToolkitClass)
  | SetFileName (o : ObjectId) (name : String)
  | SetInput (o : ObjectId) (p : ImagePointer)
  | SetInput1 (o : ObjectId) (p : ImagePointer)
  | SetInput2 (o : ObjectId) (p : ImagePointer)
  | SetFixedImageStandardDeviation (o : ObjectId) (v : ℚ)
  | SetMovingImageStandardDeviation (o : ObjectId) (v : ℚ)
  | SetMetric (o : ObjectId) (m : ObjectId)
  | SetOptimizer (o : ObjectId) (m : ObjectId)
  | SetTransform (o : ObjectId) (m : ObjectId)
  | SetInterpolator (o : ObjectId) (m : ObjectId)
  | SetFixedImage (o : ObjectId) (p : ImagePointer)
  | SetMovingImage (o : ObjectId) (p : ImagePointer)
  | SetFixedImageRegion (o : ObjectId) (r : RegionType)
  | SetInitialTransformParameters (o : ObjectId) (p : ParametersType)
  | SetLearningRate (o : ObjectId) (v : ℚ)
  | SetNumberOfIterations (o : ObjectId) (n : Nat)
  | MaximizeOn (o : ObjectId)
  | SetParameters (o : ObjectId) (p : ParametersType)
  | SetFixedParameters (o : ObjectId) (p : ParametersType)
  | SetSize (o : ObjectId) (s : FixedArray Nat)
  | SetOutputOrigin (o : ObjectId) (v : FixedArray ℚ)
  | SetOutputSpacing (o : ObjectId) (v : FixedArray ℚ)
  | SetOutputDirection (o : ObjectId) (d : FixedArray (FixedArray ℚ))
  | SetDefaultPixelValue (o : ObjectId) (v : PixelType)
  | Update (o : ObjectId)
deriving DecidableEq

/-- The object a toolkit call is made on (`none` for stream output). -/
def Event.target : Event → Option ObjectId
  | .cout _ => none
  | .coutEndl => none
  | .cerr _ => none
  | .cerrEndl => none
  | .New o _ => some o
  | .SetFileName o _ => some o
  | .SetInput o _ => some o
  | .SetInput1 o _ => some o
  | .SetInput2 o _ => some o
  | .SetFixedImageStandardDeviation o _ => some o
  | .SetMovingImageStandardDeviation o _ => some o
  | .SetMetric o _ => some o
  | .SetOptimizer o _ => some o
  | .SetTransform o _ => some o
  | .SetInterpolator o _ => some o
  | .SetFixedImage o _ => some o
  | .SetMovingImage o _ => some o
  | .SetFixedImageRegion o _ => some o
  | .SetInitialTransformParameters o _ => some o
  | .SetLearningRate o _ => some o
  | .SetNumberOfIterations o _ => some o
  | .MaximizeOn o => some o
  | .SetParameters o _ => some o
  | .SetFixedParameters o _ => some o
  | .SetSize o _ => some o
  | .SetOutputOrigin o _ => some o
  | .SetOutputSpacing o _ => some o
  | .SetOutputDirection o _ => some o
  | .SetDefaultPixelValue o _ => some o
  | .Update o => some o

/-- The image pointer a toolkit call passes, if it passes one. -/
def Event.image : Event → Option ImagePointer
  | .SetInput _ p => some p
  | .SetInput1 _ p => some p
  | .SetInput2 _ p => some p
  | .SetFixedImage _ p => some p
  | .SetMovingImage _ p => some p
  | _ => none

/-! ## The external toolkit -/

/-- The behaviour of the external toolkit in one run. -/
structure Toolkit where
  /-- The exception `o->Update()` raises, if it raises. -/
  Update : ObjectId → Option ExceptionObject
  /-- The content of `o->GetOutput()` as the program reads it after
  `o->Update()`. -/
  GetOutput : ObjectId → ImageType
  /-- `o->GetNumberOfParameters()` of a transform. -/
  GetNumberOfParameters : ObjectId → Nat
  /-- Entry `i` of a parameter vector built by the sized constructor
  `ParametersType(n)`, which does not initialise its entries. -/
  sizedEntry : Nat → Nat → ℚ
  /-- `o->GetLastTransformParameters()` of the registration after its update. -/
  GetLastTransformParameters : ObjectId → ParametersType
  /-- `o->GetCurrentIteration()` of the optimizer after the registration. -/
  GetCurrentIteration : ObjectId → Nat
  /-- `o->GetFixedParameters()` of a transform after the registration. -/
  GetFixedParameters : ObjectId → ParametersType

/-- The sized constructor `ParametersType(n)`. -/
def ParametersType.sized (tk : Toolkit) (n : Nat) : ParametersType :=
  (List.range n).map (tk.sizedEntry n)

/-- The image an `ImageType::Pointer` points to. -/
def ImagePointer.deref (tk : Toolkit) : ImagePointer → ImageType
  | .output o => tk.GetOutput o
  | .data img => img

/-! ## Runs -/

/-- A run of a piece of the program: the events it produced, in order, and
either its value or the exception that escaped it. -/
structure Run (α : Type) where
  trace : List Event
  result : Except ExceptionObject α

@[simp]
def Run.pure {α : Type} (a : α) : Run α := ⟨[], .ok a⟩

@[simp]
def Run.bind {α β : Type} (x : Run α) (f : α → Run β) : Run β :=
  match x.result with
  | .error e => ⟨x.trace, .error e⟩
  | .ok a => ⟨x.trace ++ (f a).trace, (f a).result⟩

instance : Monad Run where
  pure := Run.pure
  bind := Run.bind

/-- One event. -/
@[simp]
def call (e : Event) : Run Unit := ⟨[e], .ok ()⟩

/-- A `throw`. -/
@[simp]
def raise {α : Type} (e : ExceptionObject) : Run α := ⟨[], .error e⟩

/-- The body of a `try` block: its exception, if any, becomes a value that the
`catch` clause inspects. -/
@[simp]
def attempt {α : Type} (x : Run α) : Run (Except ExceptionObject α) :=
  ⟨x.trace, .ok x.result⟩

/-- The call `o->Update()`: the call is made, and raises if the toolkit says so. -/
@[simp]
def Update (tk : Toolkit) (o : ObjectId) : Run Unit :=
  match tk.Update o with
  | some e => ⟨[.Update o], .error e⟩
  | none => ⟨[.Update o], .ok ()⟩

/-! ## The program -/

/-- Lines 56-68. -/
def printImgSize (tk : Toolkit) (reader : ObjectId) : Run Unit := do
  -- Print Size
  call (.cout ("Size of fixed image is ("
    ++ toString (tk.GetOutput reader).largestPossibleRegion.size.e0
    ++ ", "
    ++ toString (tk.GetOutput reader).largestPossibleRegion.size.e1
    ++ ", "
    ++ toString (tk.GetOutput reader).largestPossibleRegion.size.e2
    ++ ")"))
  call .coutEndl

/-- Lines 112-113: `static_cast<unsigned int>(GetNumberOfPixels() * 0.01)`.
The conversion truncates the product towards zero and is defined only when the
truncated value fits the 32-bit `unsigned int`; outside that range the source
gives the local no defined value, which is `none` here.  Inside the range the
`double` product truncates to the same integer as the exact product. -/
def numberOfSamples (fixedImageRegion : RegionType) : Option Nat :=
  if ⌊(fixedImageRegion.GetNumberOfPixels : ℚ) * 0.01⌋₊ < 2 ^ 32 then
    some ⌊(fixedImageRegion.GetNumberOfPixels : ℚ) * 0.01⌋₊
  else
    none

set_option linter.unusedVariables false in
/-- Lines 114-146 of `translationMulitmodalRegistration`: the statements in the
scope of the local constant `numberOfSamples`, as a function of that local
(`none` when the conversion in lines 112-113 defines no value). -/
def finalOptimisation (tk : Toolkit) (fixed moving : ImagePointer)
    (numberOfSamples : Option Nat) : Run ImagePointer := do
  call (.SetLearningRate .optimizer 15.0)
  call (.SetNumberOfIterations .optimizer 1000)
  call (.MaximizeOn .optimizer)

  -- Registration
  match ← attempt (Update tk .registration) with
  | .error err => raise err
  | .ok () =>
    let finalParameters := tk.GetLastTransformParameters .registration
    call (.cout ("Finished after "
      ++ toString (tk.GetCurrentIteration .optimizer)
      ++ " iterations"))
    call .coutEndl

    -- Apply Transform
    call (.New .finalTransform TransformType)
    call (.New .resample ResampleFilterType)
    call (.SetParameters .finalTransform finalParameters)
    call (.SetFixedParameters .finalTransform (tk.GetFixedParameters .transform))
    call (.SetTransform .resample .finalTransform)
    call (.SetInput .resample moving)
    call (.SetSize .resample (fixed.deref tk).largestPossibleRegion.size)
    call (.SetOutputOrigin .resample (fixed.deref tk).origin)
    call (.SetOutputSpacing .resample (fixed.deref tk).spacing)
    call (.SetOutputDirection .resample (fixed.deref tk).direction)
    call (.SetDefaultPixelValue .resample 100)
    Update tk .resample

    return .output .resample

/-- Lines 70-147. -/
def translationMulitmodalRegistration (tk : Toolkit) (fixed moving : ImagePointer) :
    Run ImagePointer := do
  -- Prefiltering
  call (.New .fixedNormalizer NormalizeFilterType)
  call (.New .movingNormalizer NormalizeFilterType)
  call (.New .fixedSmoother GaussianFilterType)
  call (.New .movingSmoother GaussianFilterType)
  call (.SetInput .fixedNormalizer fixed)
  call (.SetInput .movingNormalizer moving)
  call (.SetInput .fixedSmoother (.output .fixedNormalizer))
  call (.SetInput .movingSmoother (.output .movingNormalizer))

  -- Registration Prep
  call (.New .metric MetricType)
  call (.New .transform TransformType)
  call (.New .optimizer OptimizerType)
  call (.New .interpolator InterpolatorType)
  call (.New .registration RegistrationType)

  call (.SetFixedImageStandardDeviation .metric 0.4)
  call (.SetMovingImageStandardDeviation .metric 0.4)
  call (.SetMetric .registration .metric)
  call (.SetOptimizer .registration .optimizer)
  call (.SetTransform .registration .transform)
  call (.SetInterpolator .registration .interpolator)
  call (.SetFixedImage .registration (.output .fixedSmoother))
  call (.SetMovingImage .registration (.output .movingSmoother))

  Update tk .fixedNormalizer
  let fixedImageRegion := (tk.GetOutput .fixedNormalizer).bufferedRegion
  call (.SetFixedImageRegion .registration fixedImageRegion)

  let initialParameters :=
    ParametersType.sized tk (tk.GetNumberOfParameters .transform)
  call (.SetInitialTransformParameters .registration initialParameters)

  -- final Optimisation
  finalOptimisation tk fixed moving (numberOfSamples fixedImageRegion)

/-- Lines 149-203.  The result is the exit status `main` returns; an exception
that escapes `main` ends the process without an exit status of `main`. -/
def main (tk : Toolkit) : Run Int := do
  -- Read
  call (.New .fixedImageReader ReaderType)
  call (.New .movingImageReader ReaderType)

  call (.cout ("Load image (" ++ FIXED_FILE ++ ")... "))
  call (.SetFileName .fixedImageReader FIXED_FILE)
  call (.cout "Success")
  call .coutEndl
  call (.cout ("Load image (" ++ MOVING_FILE ++ ")... "))
  call (.SetFileName .movingImageReader MOVING_FILE)
  call (.cout "Success")
  call .coutEndl
  Update tk .fixedImageReader
  Update tk .movingImageReader

  -- Print Size
  printImgSize tk .fixedImageReader
  printImgSize tk .movingImageReader

  match ← attempt (translationMulitmodalRegistration tk
      (.output .fixedImageReader) (.output .movingImageReader)) with
  | .error err =>
    call (.cerr "ExceptionObject caught!")
    call .cerrEndl
    call (.cerr err.text)
    call .cerrEndl
    return EXIT_FAILURE
  | .ok registered =>
    -- Stitch images together
    call (.New .checker CheckerBoardFilterType)
    call (.New .difference DifferenceFilterType)
    call (.SetInput1 .checker (.output .fixedImageReader))
    call (.SetInput2 .checker registered)
    call (.SetInput1 .difference (.output .fixedImageReader))
    call (.SetInput2 .difference registered)

    -- Write Out
    call (.cout ("Writing file to " ++ OUT_FILE ++ "... "))
    call (.New .outWriter WriterType)
    call (.New .difWriter WriterType)
    call (.SetFileName .outWriter OUT_FILE)
    call (.SetInput .outWriter (.output .checker))
    Update tk .outWriter
    call (.SetFileName .difWriter DIFF_FILE)
    call (.SetInput .difWriter (.output .difference))
    Update tk .difWriter
    call (.cout "Success")
    call .coutEndl

    return 0

/-! ## Observations on a trace -/

/-- The toolkit calls made on the object `o`, in program order. -/
def callsOn (o : ObjectId) (t : List Event) : List Event :=
  t.filter (fun e => e.target == some o)

/-- The objects whose `Update()` was called, in program order. -/
def updates : List Event → List ObjectId
  | [] => []
  | .Update o :: t => o :: updates t
  | _ :: t => updates t

/-- The events that precede the call `u->Update()` (all of them when `u` is
never updated): what the program has done when the toolkit runs `u`. -/
def beforeUpdate (u : ObjectId) : List Event → List Event
  | [] => []
  | e :: t => if e = .Update u then [] else e :: beforeUpdate u t

/-- The events that follow the call `u->Update()` (none when `u` is never
updated). -/
def afterUpdate (u : ObjectId) : List Event → List Event
  | [] => []
  | e :: t => if e = .Update u then t else afterUpdate u t

/-- The pieces written to standard output, in order (`std::endl` writes the
newline). -/
def stdoutOutput : List Event → List String
  | [] => []
  | .cout s :: t => s :: stdoutOutput t
  | .coutEndl :: t => "\n" :: stdoutOutput t
  | _ :: t => stdoutOutput t

/-- The pieces written to the standard error stream, in order. -/
def stderrOutput : List Event → List String
  | [] => []
  | .cerr s :: t => s :: stderrOutput t
  | .cerrEndl :: t => "\n" :: stderrOutput t
  | _ :: t => stderrOutput t

/-- The call `o->Update()` was made in the trace `t` and raised `err`. -/
def raisedIn (tk : Toolkit) (o : ObjectId) (err : ExceptionObject) (t : List Event) : Prop :=
  Event.Update o ∈ t ∧ tk.Update o = some err

/-- The writes performed in a trace: the objects created as `WriterType` whose
`Update()` was called, in program order. -/
def writes (t : List Event) : List ObjectId :=
  (updates t).filter (fun o => decide (Event.New o WriterType ∈ t))

/-- The calls that set one of the six pipeline stage parameters. -/
def Event.isStageParameter : Event → Bool
  | .SetFixedImageStandardDeviation _ _ => true
  | .SetMovingImageStandardDeviation _ _ => true
  | .SetLearningRate _ _ => true
  | .SetNumberOfIterations _ _ => true
  | .MaximizeOn _ => true
  | .SetDefaultPixelValue _ _ => true
  | _ => false

/-- The stage-parameter settings made in a trace, in program order. -/
def stageParameters (t : List Event) : List Event :=
  t.filter Event.isStageParameter

/-- The pipeline stage parameters as the specification enumerates them:
`fixedImageStandardDeviation: 0.4, movingImageStandardDeviation: 0.4,
learningRate: 15.0, numberOfIterations: 1000, optimizationDirection: maximize,
resampleDefaultPixelValue: 100`. -/
def specStageParameters : List Event :=
  [ .SetFixedImageStandardDeviation .metric 0.4,
    .SetMovingImageStandardDeviation .metric 0.4,
    .SetLearningRate .optimizer 15.0,
    .SetNumberOfIterations .optimizer 1000,
    .MaximizeOn .optimizer,
    .SetDefaultPixelValue .resample 100 ]

/-! ## Concrete toolkits and images used to evaluate the model -/

def sampleRegion : RegionType := ⟨⟨0, 0, 0⟩, ⟨4, 5, 6⟩⟩

def sampleImage : ImageType :=
  { largestPossibleRegion := sampleRegion
    bufferedRegion := sampleRegion
    origin := ⟨0, 0, 0⟩
    spacing := ⟨1, 1, 2⟩
    direction := ⟨⟨1, 0, 0⟩, ⟨0, 1, 0⟩, ⟨0, 0, 1⟩⟩
    buffer := [] }

def otherImage : ImageType :=
  { largestPossibleRegion := ⟨⟨0, 0, 0⟩, ⟨8, 8, 3⟩⟩
    bufferedRegion := ⟨⟨0, 0, 0⟩, ⟨8, 8, 3⟩⟩
    origin := ⟨-10, 5, 0⟩
    spacing := ⟨2, 2, 5⟩
    direction := ⟨⟨0, 1, 0⟩, ⟨1, 0, 0⟩, ⟨0, 0, 1⟩⟩
    buffer := [] }

/-- A toolkit in which every update succeeds. -/
def okToolkit : Toolkit :=
  { Update := fun _ => none
    GetOutput := fun _ => sampleImage
    GetNumberOfParameters := fun _ => DIM
    sizedEntry := fun _ _ => 7
    GetLastTransformParameters := fun _ => [1, 2, 3]
    GetCurrentIteration := fun _ => 1000
    GetFixedParameters := fun _ => [] }

/-- A toolkit in which `o->Update()` raises `e` and every other update
succeeds. -/
def failingToolkit (o : ObjectId) (e : ExceptionObject) : Toolkit :=
  { okToolkit with Update := fun x => if x = o then some e else none }

/-! ## Facts about runs -/

@[simp]
theorem Run.bind_eq {α β : Type} (x : Run α) (f : α → Run β) : x >>= f = Run.bind x f := rfl

@[simp]
theorem Run.pure_eq {α : Type} (a : α) : (Pure.pure a : Run α) = Run.pure a := rfl

/-! ## The configuration handed to the toolkit -/

/-- C1: for every toolkit behaviour and every pair of input images, the
stage-parameter settings `translationMulitmodalRegistration` makes are, in
program order, an initial part of the specification's list (standard deviations
0.4 and 0.4 on the metric; learning rate 15.0, 1000 iterations and maximize on
the optimizer; default pixel value 100 on the resampler), and always include the
two standard deviations; when the toolkit runs the registration the first five
have been made, and when it runs the resampler all six have.  No value mentions
the input images. -/
theorem stage_parameters_are_the_fixed_constants (tk : Toolkit)
    (fixed moving : ImagePointer) :
    stageParameters (translationMulitmodalRegistration tk fixed moving).trace
        <+: specStageParameters
    ∧ [ Event.SetFixedImageStandardDeviation .metric 0.4,
        .SetMovingImageStandardDeviation .metric 0.4 ]
        <+: stageParameters (translationMulitmodalRegistration tk fixed moving).trace
    ∧ (Event.Update .registration
          ∈ (translationMulitmodalRegistration tk fixed moving).trace →
        stageParameters (beforeUpdate .registration
            (translationMulitmodalRegistration tk fixed moving).trace)
          = [ .SetFixedImageStandardDeviation .metric 0.4,
              .SetMovingImageStandardDeviation .metric 0.4,
              .SetLearningRate .optimizer 15.0,
              .SetNumberOfIterations .optimizer 1000,
              .MaximizeOn .optimizer ])
    ∧ (Event.Update .resample
          ∈ (translationMulitmodalRegistration tk fixed moving).trace →
        stageParameters (beforeUpdate .resample
            (translationMulitmodalRegistration tk fixed moving).trace)
          = specStageParameters) := by
  cases h1 : tk.Update .fixedNormalizer <;> cases h2 : tk.Update .registration <;>
    cases h3 : tk.Update .resample <;>
    simp [translationMulitmodalRegistration, finalOptimisation, stageParameters,
      specStageParameters, beforeUpdate, Event.isStageParameter, h1, h2, h3,
      List.prefix_cons_inj]

/-- With a toolkit in which every update succeeds, both hand-overs of C1 happen
and carry the six constants. -/
theorem stage_parameters_are_the_fixed_constants_witness :
    Event.Update .resample
        ∈ (translationMulitmodalRegistration okToolkit (.data sampleImage)
            (.data sampleImage)).trace
    ∧ stageParameters (beforeUpdate .resample
          (translationMulitmodalRegistration okToolkit (.data sampleImage)
            (.data sampleImage)).trace)
        = specStageParameters :=
  ⟨by decide,
   (stage_parameters_are_the_fixed_constants okToolkit (.data sampleImage)
      (.data sampleImage)).2.2.2 (by decide)⟩

/-! ## Resampling onto the fixed image's grid -/

/-- C4: whenever `translationMulitmodalRegistration` returns an image, that
image is the output of the resampler; the resampler's input is the `moving`
argument itself, and its size, origin, spacing and direction were set to the
largest-possible-region size, origin, spacing and direction of `fixed` before it
ran.  Any other successful run on the same fixed image, whatever the moving
image and whatever else the toolkit does, makes the same four grid settings. -/
theorem registered_is_moving_resampled_onto_fixed_grid (tk : Toolkit)
    (fixed moving : ImagePointer) (registered : ImagePointer)
    (hReturned : (translationMulitmodalRegistration tk fixed moving).result
      = .ok registered) :
    registered = .output .resample
    ∧ callsOn .resample (translationMulitmodalRegistration tk fixed moving).trace
        = [ .New .resample ResampleFilterType,
            .SetTransform .resample .finalTransform,
            .SetInput .resample moving,
            .SetSize .resample (fixed.deref tk).largestPossibleRegion.size,
            .SetOutputOrigin .resample (fixed.deref tk).origin,
            .SetOutputSpacing .resample (fixed.deref tk).spacing,
            .SetOutputDirection .resample (fixed.deref tk).direction,
            .SetDefaultPixelValue .resample 100,
            .Update .resample ]
    ∧ ∀ (tk2 : Toolkit) (moving2 registered2 : ImagePointer),
        fixed.deref tk2 = fixed.deref tk →
        (translationMulitmodalRegistration tk2 fixed moving2).result = .ok registered2 →
        callsOn .resample (translationMulitmodalRegistration tk2 fixed moving2).trace
          = [ .New .resample ResampleFilterType,
              .SetTransform .resample .finalTransform,
              .SetInput .resample moving2,
              .SetSize .resample (fixed.deref tk).largestPossibleRegion.size,
              .SetOutputOrigin .resample (fixed.deref tk).origin,
              .SetOutputSpacing .resample (fixed.deref tk).spacing,
              .SetOutputDirection .resample (fixed.deref tk).direction,
              .SetDefaultPixelValue .resample 100,
              .Update .resample ] := by
  have hRun : ∀ (tk1 : Toolkit) (moving1 registered1 : ImagePointer),
      (translationMulitmodalRegistration tk1 fixed moving1).result = .ok registered1 →
      registered1 = .output .resample
      ∧ callsOn .resample (translationMulitmodalRegistration tk1 fixed moving1).trace
          = [ .New .resample ResampleFilterType,
              .SetTransform .resample .finalTransform,
              .SetInput .resample moving1,
              .SetSize .resample (fixed.deref tk1).largestPossibleRegion.size,
              .SetOutputOrigin .resample (fixed.deref tk1).origin,
              .SetOutputSpacing .resample (fixed.deref tk1).spacing,
              .SetOutputDirection .resample (fixed.deref tk1).direction,
              .SetDefaultPixelValue .resample 100,
              .Update .resample ] := by
    intro tk1 moving1 registered1 hOk
    cases h1 : tk1.Update .fixedNormalizer <;> cases h2 : tk1.Update .registration <;>
      cases h3 : tk1.Update .resample <;>
      simp [translationMulitmodalRegistration, finalOptimisation, h1, h2, h3] at hOk
    simp [translationMulitmodalRegistration, finalOptimisation, callsOn, Event.target,
      h1, h2, h3, ← hOk]
  refine ⟨(hRun tk moving registered hReturned).1,
    (hRun tk moving registered hReturned).2, ?_⟩
  intro tk2 moving2 registered2 hSame hOk
  rw [← hSame]
  exact (hRun tk2 moving2 registered2 hOk).2

/-- A successful run on two different images: C4 applies, and the grid handed
to the resampler is that of the fixed image. -/
theorem registered_is_moving_resampled_onto_fixed_grid_witness :
    (translationMulitmodalRegistration okToolkit (.data sampleImage)
        (.data otherImage)).result = .ok (.output .resample)
    ∧ Event.SetSize .resample ⟨4, 5, 6⟩
        ∈ callsOn .resample (translationMulitmodalRegistration okToolkit
            (.data sampleImage) (.data otherImage)).trace :=
  ⟨rfl,
   by
    rw [(registered_is_moving_resampled_onto_fixed_grid okToolkit (.data sampleImage)
      (.data otherImage) (.output .resample) rfl).2.1]
    decide⟩

/-! ## Prefiltering -/

/-- C5: in every run, the registration is given the output of `fixedSmoother`
as its fixed image and the output of `movingSmoother` as its moving image, and
nothing else as an image; each smoother (a Gaussian filter) reads the output of
its own normalizer (a normalize filter), and each normalizer reads the
corresponding argument. -/
theorem registration_inputs_are_normalized_then_smoothed (tk : Toolkit)
    (fixed moving : ImagePointer) :
    (callsOn .registration
        (translationMulitmodalRegistration tk fixed moving).trace).filter
          (fun e => e.image.isSome)
      = [ .SetFixedImage .registration (.output .fixedSmoother),
          .SetMovingImage .registration (.output .movingSmoother) ]
    ∧ callsOn .fixedSmoother (translationMulitmodalRegistration tk fixed moving).trace
        = [ .New .fixedSmoother .DiscreteGaussianImageFilter,
            .SetInput .fixedSmoother (.output .fixedNormalizer) ]
    ∧ callsOn .movingSmoother (translationMulitmodalRegistration tk fixed moving).trace
        = [ .New .movingSmoother .DiscreteGaussianImageFilter,
            .SetInput .movingSmoother (.output .movingNormalizer) ]
    ∧ callsOn .fixedNormalizer (translationMulitmodalRegistration tk fixed moving).trace
        = [ .New .fixedNormalizer .NormalizeImageFilter,
            .SetInput .fixedNormalizer fixed,
            .Update .fixedNormalizer ]
    ∧ callsOn .movingNormalizer (translationMulitmodalRegistration tk fixed moving).trace
        = [ .New .movingNormalizer .NormalizeImageFilter,
            .SetInput .movingNormalizer moving ] := by
  cases h1 : tk.Update .fixedNormalizer <;> cases h2 : tk.Update .registration <;>
    cases h3 : tk.Update .resample <;>
    simp [translationMulitmodalRegistration, finalOptimisation, callsOn, Event.target,
      Event.image, h1, h2, h3]

/-! ## The found transform -/

/-- C6: when the registration update has been called and did not raise, the
calls made on `finalTransform` are its creation as a translation transform,
`SetParameters` with the registration's last transform parameters and
`SetFixedParameters` with the fixed parameters of `transform`; `finalTransform`
is created after the registration ran and is the only transform given to the
resampler.  When the registration ran it had been given `metric`, `optimizer`,
`transform` and `interpolator`, created as mutual-information metric,
gradient-descent optimizer, translation transform and linear interpolator. -/
theorem resampler_uses_the_found_transform (tk : Toolkit)
    (fixed moving : ImagePointer)
    (hCalled : Event.Update .registration
      ∈ (translationMulitmodalRegistration tk fixed moving).trace)
    (hSucceeded : tk.Update .registration = none) :
    callsOn .finalTransform (translationMulitmodalRegistration tk fixed moving).trace
        = [ .New .finalTransform .TranslationTransform,
            .SetParameters .finalTransform (tk.GetLastTransformParameters .registration),
            .SetFixedParameters .finalTransform (tk.GetFixedParameters .transform) ]
    ∧ callsOn .finalTransform (beforeUpdate .registration
          (translationMulitmodalRegistration tk fixed moving).trace) = []
    ∧ (∀ m, Event.SetTransform .resample m
          ∈ beforeUpdate .resample
              (translationMulitmodalRegistration tk fixed moving).trace
        ↔ m = .finalTransform)
    ∧ callsOn .registration (beforeUpdate .registration
          (translationMulitmodalRegistration tk fixed moving).trace)
        = [ .New .registration .ImageRegistrationMethod,
            .SetMetric .registration .metric,
            .SetOptimizer .registration .optimizer,
            .SetTransform .registration .transform,
            .SetInterpolator .registration .interpolator,
            .SetFixedImage .registration (.output .fixedSmoother),
            .SetMovingImage .registration (.output .movingSmoother),
            .SetFixedImageRegion .registration
              (tk.GetOutput .fixedNormalizer).bufferedRegion,
            .SetInitialTransformParameters .registration
              (ParametersType.sized tk (tk.GetNumberOfParameters .transform)) ]
    ∧ (∀ cls, Event.New .transform cls
          ∈ beforeUpdate .registration
              (translationMulitmodalRegistration tk fixed moving).trace
        ↔ cls = .TranslationTransform)
    ∧ (∀ cls, Event.New .metric cls
          ∈ beforeUpdate .registration
              (translationMulitmodalRegistration tk fixed moving).trace
        ↔ cls = .MutualInformationImageToImageMetric)
    ∧ (∀ cls, Event.New .optimizer cls
          ∈ beforeUpdate .registration
              (translationMulitmodalRegistration tk fixed moving).trace
        ↔ cls = .GradientDescentOptimizer)
    ∧ (∀ cls, Event.New .interpolator cls
          ∈ beforeUpdate .registration
              (translationMulitmodalRegistration tk fixed moving).trace
        ↔ cls = .LinearInterpolateImageFunction) := by
  cases h1 : tk.Update .fixedNormalizer with
  | some e =>
    simp [translationMulitmodalRegistration, finalOptimisation, h1] at hCalled
  | none =>
    cases h3 : tk.Update .resample <;>
      simp [translationMulitmodalRegistration, finalOptimisation, callsOn, Event.target,
        beforeUpdate, h1, hSucceeded, h3]

/-- A run in which every update succeeds: C6 applies, and the found parameters
reach the final transform. -/
theorem resampler_uses_the_found_transform_witness :
    Event.Update .registration
        ∈ (translationMulitmodalRegistration okToolkit (.data sampleImage)
            (.data otherImage)).trace
    ∧ okToolkit.Update .registration = none
    ∧ callsOn .finalTransform (translationMulitmodalRegistration okToolkit
          (.data sampleImage) (.data otherImage)).trace
        = [ .New .finalTransform .TranslationTransform,
            .SetParameters .finalTransform [1, 2, 3],
            .SetFixedParameters .finalTransform [] ] :=
  ⟨by decide, rfl,
   (resampler_uses_the_found_transform okToolkit (.data sampleImage)
      (.data otherImage) (by decide) rfl).1⟩

/-! ## The initial transform parameters -/

/-- The sized constructor yields a vector of the requested length. -/
theorem ParametersType.length_sized (tk : Toolkit) (n : Nat) :
    (ParametersType.sized tk n).length = n := by
  simp [ParametersType.sized]

/-- Any vector is the yield of the sized constructor of a toolkit that leaves
the vector's entries in the fresh memory. -/
theorem ParametersType.sized_of_entries (tk : Toolkit) (v : ParametersType)
    (hEntries : ∀ n i, tk.sizedEntry n i = v.getD i 0) :
    ParametersType.sized tk v.length = v := by
  apply List.ext_getElem
  · simp [ParametersType.sized]
  · intro i h1 h2
    simp [ParametersType.sized, hEntries, List.getElem?_eq_getElem h2]

/-- C8: the only `SetInitialTransformParameters` call the function makes is on
the registration, and the vector it passes is the yield of the sized constructor
`ParametersType(transform->GetNumberOfParameters())`, entry for entry; its
length is the transform's number of parameters (3 when the translation transform
has `DIM` parameters); the call has been made when the toolkit runs the
registration.  The program puts no value of its own into the vector: for every
vector `v` there is a toolkit whose sized constructor yields `v`, and with it the
registration is started from `v`. -/
theorem initial_parameters_are_the_sized_constructor_yield (tk : Toolkit)
    (fixed moving : ImagePointer) :
    (∀ o p, Event.SetInitialTransformParameters o p
          ∈ (translationMulitmodalRegistration tk fixed moving).trace →
        o = .registration
        ∧ p = ParametersType.sized tk (tk.GetNumberOfParameters .transform)
        ∧ p.length = tk.GetNumberOfParameters .transform
        ∧ (tk.GetNumberOfParameters .transform = DIM → p.length = 3)
        ∧ ∀ i (h : i < p.length),
            p[i] = tk.sizedEntry (tk.GetNumberOfParameters .transform) i)
    ∧ (Event.Update .registration
          ∈ (translationMulitmodalRegistration tk fixed moving).trace →
        Event.SetInitialTransformParameters .registration
            (ParametersType.sized tk (tk.GetNumberOfParameters .transform))
          ∈ beforeUpdate .registration
              (translationMulitmodalRegistration tk fixed moving).trace)
    ∧ (∀ v : ParametersType, ∃ tk2 : Toolkit,
        Event.SetInitialTransformParameters .registration v
          ∈ beforeUpdate .registration
              (translationMulitmodalRegistration tk2 fixed moving).trace) := by
  refine ⟨?_, ?_, ?_⟩
  · intro o p hp
    have hop : o = .registration
        ∧ p = ParametersType.sized tk (tk.GetNumberOfParameters .transform) := by
      cases h1 : tk.Update .fixedNormalizer <;> cases h2 : tk.Update .registration <;>
        cases h3 : tk.Update .resample <;>
        simp [translationMulitmodalRegistration, finalOptimisation, h1, h2, h3] at hp <;>
        exact hp
    obtain ⟨rfl, rfl⟩ := hop
    refine ⟨rfl, rfl, ParametersType.length_sized _ _, ?_, ?_⟩
    · intro hDim
      rw [ParametersType.length_sized, hDim]
      rfl
    · intro i h
      simp [ParametersType.sized]
  · cases h1 : tk.Update .fixedNormalizer <;> cases h2 : tk.Update .registration <;>
      cases h3 : tk.Update .resample <;>
      simp [translationMulitmodalRegistration, finalOptimisation, beforeUpdate, h1, h2, h3]
  · intro v
    refine ⟨{ okToolkit with
        GetNumberOfParameters := fun _ => v.length
        sizedEntry := fun _ i => v.getD i 0 }, ?_⟩
    have hv := ParametersType.sized_of_entries
      { okToolkit with
        GetNumberOfParameters := fun _ => v.length
        sizedEntry := fun _ i => v.getD i 0 } v (fun _ _ => rfl)
    simp only [translationMulitmodalRegistration, hv]
    simp [finalOptimisation, beforeUpdate, okToolkit]

/-- With the toolkit whose sized constructor leaves 7 in every entry, the
registration is started from (7, 7, 7). -/
theorem initial_parameters_are_the_sized_constructor_yield_witness :
    Event.SetInitialTransformParameters .registration [7, 7, 7]
        ∈ (translationMulitmodalRegistration okToolkit (.data sampleImage)
            (.data otherImage)).trace
    ∧ ([7, 7, 7] : ParametersType)
        = ParametersType.sized okToolkit (okToolkit.GetNumberOfParameters .transform) :=
  ⟨by decide,
   ((initial_parameters_are_the_sized_constructor_yield okToolkit (.data sampleImage)
      (.data otherImage)).1 .registration [7, 7, 7] (by decide)).2.1⟩

/-! ## The unused sample count -/

/-- When a hundredth of the pixel count fits an `unsigned int`, the sample
count is that hundredth, rounded down. -/
theorem numberOfSamples_eq_div (r : RegionType)
    (hRange : r.GetNumberOfPixels / 100 < 2 ^ 32) :
    numberOfSamples r = some (r.GetNumberOfPixels / 100) := by
  unfold numberOfSamples
  have h : ((r.GetNumberOfPixels : ℚ) * 0.01) = (r.GetNumberOfPixels : ℚ) / ((100 : ℕ) : ℚ) := by
    norm_num
    ring
  rw [h, Nat.floor_div_eq_div, if_pos hRange]

/-- When a hundredth of the pixel count does not fit an `unsigned int`, the
conversion defines no sample count. -/
theorem numberOfSamples_eq_none (r : RegionType)
    (hRange : 2 ^ 32 ≤ r.GetNumberOfPixels / 100) :
    numberOfSamples r = none := by
  unfold numberOfSamples
  have h : ((r.GetNumberOfPixels : ℚ) * 0.01) = (r.GetNumberOfPixels : ℚ) / ((100 : ℕ) : ℚ) := by
    norm_num
    ring
  rw [h, Nat.floor_div_eq_div, if_neg (Nat.not_lt.mpr hRange)]

set_option maxHeartbeats 1000000 in
/-- C9: the statements that follow the declaration of `numberOfSamples` behave
the same for every value of it, defined or not; the run of the function ends
with them and has their result, whatever value is supplied; and in every run the
calls on the metric are its creation and the two standard-deviation settings,
and the calls on the optimizer and on the registration are drawn, in order, from
the fixed lists below, none of which carries a sample count.  The value itself
is the pixel count of the fixed image region divided by 100 and rounded down,
whenever that fits the `unsigned int` it is converted to. -/
theorem number_of_samples_is_never_used (tk : Toolkit) (fixed moving : ImagePointer) :
    (∀ n m : Option Nat,
        finalOptimisation tk fixed moving n = finalOptimisation tk fixed moving m)
    ∧ (∀ n : Option Nat, tk.Update .fixedNormalizer = none →
        (finalOptimisation tk fixed moving n).trace
            <:+ (translationMulitmodalRegistration tk fixed moving).trace
        ∧ (translationMulitmodalRegistration tk fixed moving).result
            = (finalOptimisation tk fixed moving n).result)
    ∧ callsOn .metric (translationMulitmodalRegistration tk fixed moving).trace
        = [ .New .metric .MutualInformationImageToImageMetric,
            .SetFixedImageStandardDeviation .metric 0.4,
            .SetMovingImageStandardDeviation .metric 0.4 ]
    ∧ callsOn .optimizer (translationMulitmodalRegistration tk fixed moving).trace
        <+: [ .New .optimizer .GradientDescentOptimizer,
              .SetLearningRate .optimizer 15.0,
              .SetNumberOfIterations .optimizer 1000,
              .MaximizeOn .optimizer ]
    ∧ callsOn .registration (translationMulitmodalRegistration tk fixed moving).trace
        <+: [ .New .registration .ImageRegistrationMethod,
              .SetMetric .registration .metric,
              .SetOptimizer .registration .optimizer,
              .SetTransform .registration .transform,
              .SetInterpolator .registration .interpolator,
              .SetFixedImage .registration (.output .fixedSmoother),
              .SetMovingImage .registration (.output .movingSmoother),
              .SetFixedImageRegion .registration
                (tk.GetOutput .fixedNormalizer).bufferedRegion,
              .SetInitialTransformParameters .registration
                (ParametersType.sized tk (tk.GetNumberOfParameters .transform)),
              .Update .registration ]
    ∧ ((tk.GetOutput .fixedNormalizer).bufferedRegion.GetNumberOfPixels / 100 < 2 ^ 32 →
        numberOfSamples (tk.GetOutput .fixedNormalizer).bufferedRegion
          = some ((tk.GetOutput .fixedNormalizer).bufferedRegion.GetNumberOfPixels / 100)) := by
  refine ⟨fun _ _ => rfl, ?_, ?_, ?_, ?_, numberOfSamples_eq_div _⟩
  · intro n h1
    cases h2 : tk.Update .registration <;> cases h3 : tk.Update .resample <;>
      simp [translationMulitmodalRegistration, finalOptimisation, h1, h2, h3,
        List.suffix_cons_iff]
  all_goals
    cases h1 : tk.Update .fixedNormalizer <;> cases h2 : tk.Update .registration <;>
      cases h3 : tk.Update .resample <;>
      simp [translationMulitmodalRegistration, finalOptimisation, callsOn, Event.target,
        h1, h2, h3, List.prefix_cons_inj]

/-- With every update succeeding, the run of the function ends with the run of
the statements after `numberOfSamples`, here supplied with the value 0 although
the region has 120 pixels and the source computes 1. -/
theorem number_of_samples_is_never_used_witness :
    okToolkit.Update .fixedNormalizer = none
    ∧ (okToolkit.GetOutput .fixedNormalizer).bufferedRegion.GetNumberOfPixels / 100 < 2 ^ 32
    ∧ numberOfSamples (okToolkit.GetOutput .fixedNormalizer).bufferedRegion = some 1
    ∧ (finalOptimisation okToolkit (.data sampleImage) (.data otherImage) (some 0)).trace
        <:+ (translationMulitmodalRegistration okToolkit (.data sampleImage)
              (.data otherImage)).trace :=
  ⟨rfl,
   by decide,
   (number_of_samples_is_never_used okToolkit (.data sampleImage)
      (.data otherImage)).2.2.2.2.2 (by decide),
   ((number_of_samples_is_never_used okToolkit (.data sampleImage)
      (.data otherImage)).2.1 (some 0) rfl).1⟩

/-! ## Exit status and error report of `main` -/

set_option maxRecDepth 8192 in
set_option maxHeartbeats 1000000 in
/-- C2: when both reader updates and both writer updates do not raise, `main`
returns, and it returns `EXIT_FAILURE` (which is not 0) exactly when one of the
three updates `translationMulitmodalRegistration` calls (normalizer,
registration, resampler) was called and raised; otherwise it returns 0.  When
one of them raised `err`, everything `main` writes to the error stream is the
line "ExceptionObject caught!" followed by the line `err.text`, and these are the
last events of the run. -/
theorem main_fails_iff_registration_raises (tk : Toolkit)
    (hFixedRead : tk.Update .fixedImageReader = none)
    (hMovingRead : tk.Update .movingImageReader = none)
    (hOutWrite : tk.Update .outWriter = none)
    (hDifWrite : tk.Update .difWriter = none) :
    ((main tk).result = .ok EXIT_FAILURE ∨ (main tk).result = .ok 0)
    ∧ EXIT_FAILURE ≠ 0
    ∧ ((main tk).result = .ok EXIT_FAILURE ↔
        ∃ err,
          raisedIn tk .fixedNormalizer err (translationMulitmodalRegistration tk
            (.output .fixedImageReader) (.output .movingImageReader)).trace
          ∨ raisedIn tk .registration err (translationMulitmodalRegistration tk
            (.output .fixedImageReader) (.output .movingImageReader)).trace
          ∨ raisedIn tk .resample err (translationMulitmodalRegistration tk
            (.output .fixedImageReader) (.output .movingImageReader)).trace)
    ∧ (∀ err,
        (raisedIn tk .fixedNormalizer err (translationMulitmodalRegistration tk
            (.output .fixedImageReader) (.output .movingImageReader)).trace
          ∨ raisedIn tk .registration err (translationMulitmodalRegistration tk
            (.output .fixedImageReader) (.output .movingImageReader)).trace
          ∨ raisedIn tk .resample err (translationMulitmodalRegistration tk
            (.output .fixedImageReader) (.output .movingImageReader)).trace) →
        [Event.cerr "ExceptionObject caught!", .cerrEndl, .cerr err.text, .cerrEndl]
            <:+ (main tk).trace
        ∧ stderrOutput (main tk).trace
            = ["ExceptionObject caught!", "\n", err.text, "\n"]) := by
  cases h1 : tk.Update .fixedNormalizer <;> cases h2 : tk.Update .registration <;>
    cases h3 : tk.Update .resample <;>
    simp [main, printImgSize, translationMulitmodalRegistration, finalOptimisation,
      raisedIn, stderrOutput, EXIT_FAILURE, h1, h2, h3, hFixedRead, hMovingRead,
      hOutWrite, hDifWrite, List.suffix_cons_iff]

/-- A run in which the registration update raises "boom": `main` returns
`EXIT_FAILURE` and reports the error. -/
theorem main_fails_iff_registration_raises_witness :
    (main (failingToolkit .registration ⟨"boom"⟩)).result = .ok EXIT_FAILURE
    ∧ stderrOutput (main (failingToolkit .registration ⟨"boom"⟩)).trace
        = ["ExceptionObject caught!", "\n", "boom", "\n"] :=
  ⟨(main_fails_iff_registration_raises (failingToolkit .registration ⟨"boom"⟩)
      rfl rfl rfl rfl).2.2.1.2 ⟨⟨"boom"⟩, Or.inr (Or.inl ⟨by decide, rfl⟩)⟩,
   ((main_fails_iff_registration_raises (failingToolkit .registration ⟨"boom"⟩)
      rfl rfl rfl rfl).2.2.2 ⟨"boom"⟩ (Or.inr (Or.inl ⟨by decide, rfl⟩))).2⟩

/-! ## The two writes -/

/-- When `main` returns 0, no update raised. -/
theorem updates_succeed_of_main_ok (tk : Toolkit) (hSuccess : (main tk).result = .ok 0) :
    tk.Update .fixedImageReader = none ∧ tk.Update .movingImageReader = none
    ∧ tk.Update .fixedNormalizer = none ∧ tk.Update .registration = none
    ∧ tk.Update .resample = none
    ∧ tk.Update .outWriter = none ∧ tk.Update .difWriter = none := by
  cases hFR : tk.Update .fixedImageReader with
  | some e => simp [main, hFR] at hSuccess
  | none =>
  cases hMR : tk.Update .movingImageReader with
  | some e => simp [main, hFR, hMR] at hSuccess
  | none =>
  cases h1 : tk.Update .fixedNormalizer with
  | some e =>
    simp [main, printImgSize, translationMulitmodalRegistration, EXIT_FAILURE,
      hFR, hMR, h1] at hSuccess
  | none =>
  cases h2 : tk.Update .registration with
  | some e =>
    simp [main, printImgSize, translationMulitmodalRegistration, finalOptimisation,
      EXIT_FAILURE, hFR, hMR, h1, h2] at hSuccess
  | none =>
  cases h3 : tk.Update .resample with
  | some e =>
    simp [main, printImgSize, translationMulitmodalRegistration, finalOptimisation,
      EXIT_FAILURE, hFR, hMR, h1, h2, h3] at hSuccess
  | none =>
  cases hOW : tk.Update .outWriter with
  | some e =>
    simp [main, printImgSize, translationMulitmodalRegistration, finalOptimisation,
      hFR, hMR, h1, h2, h3, hOW] at hSuccess
  | none =>
  cases hDW : tk.Update .difWriter with
  | some e =>
    simp [main, printImgSize, translationMulitmodalRegistration, finalOptimisation,
      hFR, hMR, h1, h2, h3, hOW, hDW] at hSuccess
  | none => simp

set_option maxRecDepth 8192 in
set_option maxHeartbeats 1000000 in
/-- C3: when `main` returns 0, the registration function returned the output
of the resampler, and the writes of the run are exactly two, `outWriter` then
`difWriter`.  When `outWriter` ran it had been given the file name
"data/out.nii.gz" and the output of `checker`, a checkerboard filter whose
input 1 is the output of the fixed image reader and whose input 2 is the
registered image; when `difWriter` ran, `outWriter` had run, and `difWriter` had
been given "data/dif.nii.gz" and the output of `difference`, a subtract filter
with the same input 1 and input 2. -/
theorem successful_run_writes_checkerboard_then_difference (tk : Toolkit)
    (hSuccess : (main tk).result = .ok 0) :
    (translationMulitmodalRegistration tk (.output .fixedImageReader)
        (.output .movingImageReader)).result = .ok (.output .resample)
    ∧ writes (main tk).trace = [.outWriter, .difWriter]
    ∧ callsOn .outWriter (beforeUpdate .outWriter (main tk).trace)
        = [ .New .outWriter .ImageFileWriter,
            .SetFileName .outWriter "data/out.nii.gz",
            .SetInput .outWriter (.output .checker) ]
    ∧ callsOn .checker (beforeUpdate .outWriter (main tk).trace)
        = [ .New .checker .CheckerBoardImageFilter,
            .SetInput1 .checker (.output .fixedImageReader),
            .SetInput2 .checker (.output .resample) ]
    ∧ Event.Update .outWriter ∈ beforeUpdate .difWriter (main tk).trace
    ∧ callsOn .difWriter (beforeUpdate .difWriter (main tk).trace)
        = [ .New .difWriter .ImageFileWriter,
            .SetFileName .difWriter "data/dif.nii.gz",
            .SetInput .difWriter (.output .difference) ]
    ∧ callsOn .difference (beforeUpdate .difWriter (main tk).trace)
        = [ .New .difference .SubtractImageFilter,
            .SetInput1 .difference (.output .fixedImageReader),
            .SetInput2 .difference (.output .resample) ]
    ∧ callsOn .checker (main tk).trace
        = callsOn .checker (beforeUpdate .outWriter (main tk).trace)
    ∧ callsOn .difference (main tk).trace
        = callsOn .difference (beforeUpdate .difWriter (main tk).trace)
    ∧ OUT_FILE = "data/out.nii.gz" ∧ DIFF_FILE = "data/dif.nii.gz" := by
  obtain ⟨hFR, hMR, h1, h2, h3, hOW, hDW⟩ := updates_succeed_of_main_ok tk hSuccess
  simp [main, printImgSize, translationMulitmodalRegistration, finalOptimisation,
    writes, updates, callsOn, beforeUpdate, Event.target, OUT_FILE, DIFF_FILE,
    hFR, hMR, h1, h2, h3, hOW, hDW]

/-- With every update succeeding `main` returns 0 and C3 applies. -/
theorem successful_run_writes_checkerboard_then_difference_witness :
    (main okToolkit).result = .ok 0
    ∧ writes (main okToolkit).trace = [.outWriter, .difWriter] :=
  ⟨rfl, (successful_run_writes_checkerboard_then_difference okToolkit rfl).2.1⟩

/-! ## No write after a failed registration -/

set_option maxRecDepth 8192 in
set_option maxHeartbeats 1000000 in
/-- C7: `main` returns `EXIT_FAILURE` exactly in the runs in which both reads
succeed and `translationMulitmodalRegistration` raises.  In every such run there
is no write: no call at all is made on `checker`, `difference`, `outWriter` or
`difWriter` (they are not even created), and no object is given the file name
"data/out.nii.gz" or "data/dif.nii.gz". -/
theorem no_write_when_registration_raises (tk : Toolkit) :
    ((main tk).result = .ok EXIT_FAILURE ↔
        tk.Update .fixedImageReader = none ∧ tk.Update .movingImageReader = none
        ∧ ∃ err, (translationMulitmodalRegistration tk (.output .fixedImageReader)
            (.output .movingImageReader)).result = .error err)
    ∧ ((main tk).result = .ok EXIT_FAILURE →
        writes (main tk).trace = []
        ∧ callsOn .checker (main tk).trace = []
        ∧ callsOn .difference (main tk).trace = []
        ∧ callsOn .outWriter (main tk).trace = []
        ∧ callsOn .difWriter (main tk).trace = []
        ∧ ∀ o, Event.SetFileName o OUT_FILE ∉ (main tk).trace
            ∧ Event.SetFileName o DIFF_FILE ∉ (main tk).trace) := by
  cases hFR : tk.Update .fixedImageReader with
  | some e => simp [main, hFR]
  | none =>
  cases hMR : tk.Update .movingImageReader with
  | some e => simp [main, hFR, hMR]
  | none =>
  cases h1 : tk.Update .fixedNormalizer with
  | some e =>
    simp [main, printImgSize, translationMulitmodalRegistration, EXIT_FAILURE, writes,
      updates, callsOn, Event.target, OUT_FILE, DIFF_FILE, FIXED_FILE, MOVING_FILE,
      hFR, hMR, h1]
  | none =>
  cases h2 : tk.Update .registration with
  | some e =>
    simp [main, printImgSize, translationMulitmodalRegistration, finalOptimisation,
      EXIT_FAILURE, writes, updates, callsOn, Event.target, OUT_FILE, DIFF_FILE,
      FIXED_FILE, MOVING_FILE, hFR, hMR, h1, h2]
  | none =>
  cases h3 : tk.Update .resample with
  | some e =>
    simp [main, printImgSize, translationMulitmodalRegistration, finalOptimisation,
      EXIT_FAILURE, writes, updates, callsOn, Event.target, OUT_FILE, DIFF_FILE,
      FIXED_FILE, MOVING_FILE, hFR, hMR, h1, h2, h3]
  | none =>
  cases hOW : tk.Update .outWriter with
  | some e =>
    simp [main, printImgSize, translationMulitmodalRegistration, finalOptimisation,
      EXIT_FAILURE, hFR, hMR, h1, h2, h3, hOW]
  | none =>
  cases hDW : tk.Update .difWriter with
  | some e =>
    simp [main, printImgSize, translationMulitmodalRegistration, finalOptimisation,
      EXIT_FAILURE, hFR, hMR, h1, h2, h3, hOW, hDW]
  | none =>
    simp [main, printImgSize, translationMulitmodalRegistration, finalOptimisation,
      EXIT_FAILURE, hFR, hMR, h1, h2, h3, hOW, hDW]

/-- A run in which the resampler raises: `main` returns `EXIT_FAILURE` and has
written nothing. -/
theorem no_write_when_registration_raises_witness :
    (main (failingToolkit .resample ⟨"boom"⟩)).result = .ok EXIT_FAILURE
    ∧ writes (main (failingToolkit .resample ⟨"boom"⟩)).trace = []
    ∧ callsOn .checker (main (failingToolkit .resample ⟨"boom"⟩)).trace = [] :=
  ⟨rfl,
   ((no_write_when_registration_raises (failingToolkit .resample ⟨"boom"⟩)).2 rfl).1,
   ((no_write_when_registration_raises (failingToolkit .resample ⟨"boom"⟩)).2 rfl).2.1⟩

/-! ## Order of messages, reads and writes -/

/-- The success message and the size message differ. -/
theorem success_ne_sizeMessage (s : String) :
    ("Success" = "Size of fixed image is (" ++ s) = False := by
  simp only [eq_iff_iff, iff_false]
  intro h
  have hl := congrArg String.length h
  have h1 : "Size of fixed image is (".length = 24 := by decide
  have h2 : "Success".length = 7 := by decide
  rw [String.length_append, h1, h2] at hl
  omega

/-- The success message and the iteration message differ. -/
theorem success_ne_finishedMessage (s : String) :
    ("Success" = "Finished after " ++ s) = False := by
  simp only [eq_iff_iff, iff_false]
  intro h
  have hl := congrArg String.length h
  have h1 : "Finished after ".length = 15 := by decide
  have h2 : "Success".length = 7 := by decide
  rw [String.length_append, h1, h2] at hl
  omega

set_option maxRecDepth 8192 in
set_option maxHeartbeats 1000000 in
/-- C10: every run of `main`, whatever the toolkit does, starts with the
creation of the two readers, the two "Load image (...)... Success" lines and
only then the first reader update; no update precedes it.  From the first
reader update up to the call of `difWriter`'s update no "Success" is written.
What follows that call is either nothing, or the message "Success" and the end
of line, and then `outWriter`'s update was called before it and neither writer
update raised; a run that returns 0 ends this way. -/
theorem load_success_precedes_reads_write_success_follows_writes (tk : Toolkit) :
    [ Event.New .fixedImageReader .ImageFileReader,
      .New .movingImageReader .ImageFileReader,
      .cout "Load image (data/B006_LFOV_N4.nii.gz)... ",
      .SetFileName .fixedImageReader "data/B006_LFOV_N4.nii.gz",
      .cout "Success",
      .coutEndl,
      .cout "Load image (data/B006_PLAN_CT.nii.gz)... ",
      .SetFileName .movingImageReader "data/B006_PLAN_CT.nii.gz",
      .cout "Success",
      .coutEndl,
      .Update .fixedImageReader ] <+: (main tk).trace
    ∧ stdoutOutput (beforeUpdate .fixedImageReader (main tk).trace)
        = [ "Load image (data/B006_LFOV_N4.nii.gz)... ", "Success", "\n",
            "Load image (data/B006_PLAN_CT.nii.gz)... ", "Success", "\n" ]
    ∧ updates (beforeUpdate .fixedImageReader (main tk).trace) = []
    ∧ updates (beforeUpdate .movingImageReader (main tk).trace) = [.fixedImageReader]
    ∧ Event.cout "Success"
        ∉ beforeUpdate .difWriter (afterUpdate .fixedImageReader (main tk).trace)
    ∧ (afterUpdate .difWriter (main tk).trace = []
        ∨ (afterUpdate .difWriter (main tk).trace = [.cout "Success", .coutEndl]
            ∧ Event.Update .outWriter ∈ beforeUpdate .difWriter (main tk).trace
            ∧ tk.Update .outWriter = none ∧ tk.Update .difWriter = none))
    ∧ ((main tk).result = .ok 0 →
        afterUpdate .difWriter (main tk).trace = [.cout "Success", .coutEndl]) := by
  cases hFR : tk.Update .fixedImageReader with
  | some e =>
    simp [main, hFR, beforeUpdate, afterUpdate, stdoutOutput, updates, FIXED_FILE,
      MOVING_FILE, List.prefix_cons_inj]
  | none =>
  cases hMR : tk.Update .movingImageReader with
  | some e =>
    simp [main, hFR, hMR, beforeUpdate, afterUpdate, stdoutOutput, updates, FIXED_FILE,
      MOVING_FILE, List.prefix_cons_inj]
  | none =>
  cases h1 : tk.Update .fixedNormalizer with
  | some e =>
    simp [main, printImgSize, translationMulitmodalRegistration, EXIT_FAILURE,
      hFR, hMR, h1, beforeUpdate, afterUpdate, stdoutOutput, updates, FIXED_FILE,
      MOVING_FILE, List.prefix_cons_inj, String.append_assoc,
      success_ne_sizeMessage, success_ne_finishedMessage]
  | none =>
  cases h2 : tk.Update .registration with
  | some e =>
    simp [main, printImgSize, translationMulitmodalRegistration, finalOptimisation,
      EXIT_FAILURE, hFR, hMR, h1, h2, beforeUpdate, afterUpdate, stdoutOutput, updates,
      FIXED_FILE, MOVING_FILE, List.prefix_cons_inj, String.append_assoc,
      success_ne_sizeMessage, success_ne_finishedMessage]
  | none =>
  cases h3 : tk.Update .resample with
  | some e =>
    simp [main, printImgSize, translationMulitmodalRegistration, finalOptimisation,
      EXIT_FAILURE, hFR, hMR, h1, h2, h3, beforeUpdate, afterUpdate, stdoutOutput,
      updates, FIXED_FILE, MOVING_FILE, List.prefix_cons_inj, String.append_assoc,
      success_ne_sizeMessage, success_ne_finishedMessage]
  | none =>
  cases hOW : tk.Update .outWriter with
  | some e =>
    simp [main, printImgSize, translationMulitmodalRegistration, finalOptimisation,
      EXIT_FAILURE, hFR, hMR, h1, h2, h3, hOW, beforeUpdate, afterUpdate, stdoutOutput,
      updates, FIXED_FILE, MOVING_FILE, OUT_FILE, List.prefix_cons_inj,
      String.append_assoc, success_ne_sizeMessage, success_ne_finishedMessage]
  | none =>
  cases hDW : tk.Update .difWriter with
  | some e =>
    simp [main, printImgSize, translationMulitmodalRegistration, finalOptimisation,
      EXIT_FAILURE, hFR, hMR, h1, h2, h3, hOW, hDW, beforeUpdate, afterUpdate,
      stdoutOutput, updates, FIXED_FILE, MOVING_FILE, OUT_FILE, List.prefix_cons_inj,
      String.append_assoc, success_ne_sizeMessage, success_ne_finishedMessage]
  | none =>
    simp [main, printImgSize, translationMulitmodalRegistration, finalOptimisation,
      EXIT_FAILURE, hFR, hMR, h1, h2, h3, hOW, hDW, beforeUpdate, afterUpdate,
      stdoutOutput, updates, FIXED_FILE, MOVING_FILE, OUT_FILE, List.prefix_cons_inj,
      String.append_assoc, success_ne_sizeMessage, success_ne_finishedMessage]

/-- With every update succeeding, `main` returns 0 and its run ends with the
write-phase "Success" right after the second write. -/
theorem load_success_precedes_reads_write_success_follows_writes_witness :
    (main okToolkit).result = .ok 0
    ∧ afterUpdate .difWriter (main okToolkit).trace = [.cout "Success", .coutEndl] :=
  ⟨rfl,
   (load_success_precedes_reads_write_success_follows_writes okToolkit).2.2.2.2.2.2 rfl⟩

end RegistrationPlayground
